import Mathlib

/-!
Verification of the SpotSave scheduling subsystem.

Shallow embedding of:
- the `check-pending-forms` edge function (select of due pending rows,
  unconditional batch status update, JSON response construction, error paths);
- the `form_submissions` and `profiles` table schemas with their CHECK
  constraints and the `handle_new_user` / `handle_updated_at` triggers;
- the row-level-security policies on `form_submissions`;
- the `update-form-status` endpoint (modelled from the integration guide,
  its source is not in the repository snapshot).
-/

namespace SpotSave

/-- Status values allowed by the CHECK constraint on form_submissions.status:
'pending', 'processing', 'completed', 'failed'. -/
inductive Status where
  | pending
  | processing
  | completed
  | failed
deriving DecidableEq, Repr

/-- A row of form_submissions, one field per column of the CREATE TABLE:
id, user_id, form_url, scheduled_time, status, error_message, created_at,
updated_at. Timestamps and uuids are modelled as naturals. -/
structure Row where
  id : Nat
  user_id : Nat
  form_url : String
  scheduled_time : Nat
  status : Status
  error_message : Option String
  created_at : Nat
  updated_at : Nat
deriving DecidableEq, Repr

/-- The form_submissions table contents, in physical order. -/
abbrev Store := List Row

/-- The endpoint's select: rows with status = 'pending' and
scheduled_time <= now. The query has no order clause and no limit, so the
result is the filtered table in store order. -/
def selectPendingDue (store : Store) (now : Nat) : List Row :=
  store.filter (fun r => decide (r.status = Status.pending ∧ r.scheduled_time ≤ now))

/-- The endpoint's batch update: set status for every row whose id is in the
given id list, unconditionally. The set_updated_at_form_submissions trigger
also sets updated_at to the database clock `t`. -/
def updateStatusIn (store : Store) (ids : List Nat) (s : Status) (t : Nat) : Store :=
  store.map (fun r => if r.id ∈ ids then { r with status := s, updated_at := t } else r)

/-- The JSON body and HTTP status the serve handler responds with. -/
structure CheckResponse where
  success : Bool
  pendingForms : List Row
  count : Nat
  errMsg : Option String
  httpStatus : Nat
deriving DecidableEq, Repr

/-- The serve handler's happy path: read the due pending rows at `now`, then
(if any were found) update those ids to 'processing' (`tUpd` is the database
clock seen by the updated_at trigger), and respond 200 with the rows as read
before the update. -/
def checkPendingForms (store : Store) (now : Nat) (tUpd : Nat) : CheckResponse × Store :=
  let pendingForms := selectPendingDue store now
  let store2 :=
    if pendingForms.length > 0 then
      updateStatusIn store (pendingForms.map Row.id) Status.processing tUpd
    else store
  ({ success := true
     pendingForms := pendingForms
     count := pendingForms.length
     errMsg := none
     httpStatus := 200 }, store2)

/-- The serve handler with the two store operations' outcomes made explicit.
A select error is thrown and caught, yielding a 500 body with success false;
the batch update's result is never inspected, so a failed update (store left
unchanged) still yields the 200 success body built from the rows read. -/
def checkPendingFormsWith (selectRes : Except String (List Row)) (updateFails : Bool)
    (store : Store) (tUpd : Nat) : CheckResponse × Store :=
  match selectRes with
  | Except.error e =>
      ({ success := false
         pendingForms := []
         count := 0
         errMsg := some e
         httpStatus := 500 }, store)
  | Except.ok pendingForms =>
      let store2 :=
        if pendingForms.length > 0 ∧ updateFails = false then
          updateStatusIn store (pendingForms.map Row.id) Status.processing tUpd
        else store
      ({ success := true
         pendingForms := pendingForms
         count := pendingForms.length
         errMsg := none
         httpStatus := 200 }, store2)

/-- Modelled from the spec: the update-form-status endpoint is not in the
repository snapshot (only its caller in the integration guide is); per the
guide it sets the given submission's status and error message by id. The
updated_at trigger also fires. -/
def updateFormStatus (store : Store) (formId : Nat) (s : Status)
    (msg : Option String) (t : Nat) : Store :=
  store.map (fun r =>
    if r.id = formId then { r with status := s, error_message := msg, updated_at := t } else r)

/-- Two endpoint invocations racing on the same store: A reads, B reads,
A applies its batch update (database clock `tA`), then B applies its batch
update (database clock `tB`). Returns A's rows, B's rows, and the final
store. -/
def raceTrace (s0 : Store) (now : Nat) (tA : Nat) (tB : Nat) :
    List Row × List Row × Store :=
  let ra := selectPendingDue s0 now
  let rb := selectPendingDue s0 now
  let s1 := if ra.length > 0 then updateStatusIn s0 (ra.map Row.id) Status.processing tA else s0
  let s2 := if rb.length > 0 then updateStatusIn s1 (rb.map Row.id) Status.processing tB else s1
  (ra, rb, s2)

/-- Repeated invocations of the endpoint, one per tick (now, tUpd),
keeping only the evolving store. -/
def runCycles (store : Store) (ticks : List (Nat × Nat)) : Store :=
  ticks.foldl (fun s t => (checkPendingForms s t.1 t.2).2) store

/-- A table of n distinct due pending rows. -/
def mkDueStore (n : Nat) : Store :=
  (List.range n).map (fun i =>
    { id := i
      user_id := 7
      form_url := "https://forms.example/f"
      scheduled_time := 0
      status := Status.pending
      error_message := none
      created_at := 0
      updated_at := 0 })

/-- Database operations covered by the row-level-security policies. -/
inductive DbOp where
  | selectOp
  | insertOp
  | updateOp
  | deleteOp
deriving DecidableEq, Repr

/-- The four RLS policies on form_submissions: view, create, update and
delete are each allowed exactly when auth.uid() = user_id. -/
def formSubmissionsPolicyAllows (uid : Nat) (r : Row) (op : DbOp) : Bool :=
  match op with
  | DbOp.selectOp => uid == r.user_id
  | DbOp.insertOp => uid == r.user_id
  | DbOp.updateOp => uid == r.user_id
  | DbOp.deleteOp => uid == r.user_id

/-- A caller is either an authenticated end user or the service-role client
the endpoint creates from SUPABASE_SERVICE_ROLE_KEY. -/
inductive Credential where
  | authenticated (uid : Nat)
  | serviceRole
deriving DecidableEq, Repr

/-- Modelled from the spec: service-role access bypasses row-level security
(platform behavior, not in the repository snapshot); authenticated access is
governed by the form_submissions policies. -/
def accessAllowed (c : Credential) (r : Row) (op : DbOp) : Bool :=
  match c with
  | Credential.serviceRole => true
  | Credential.authenticated uid => formSubmissionsPolicyAllows uid r op

/-- Signup metadata fields read by handle_new_user from raw_user_meta_data. -/
structure UserMetadata where
  full_name : Option String
  college : Option String
  year : Option String
deriving DecidableEq, Repr

/-- A freshly inserted auth.users row as seen by the signup trigger. -/
structure NewAuthUser where
  id : Nat
  email : String
  raw_user_meta_data : UserMetadata
deriving DecidableEq, Repr

/-- A row of public.profiles (the constraint-relevant columns). -/
structure Profile where
  id : Nat
  email : String
  full_name : String
  college : String
  year : String
deriving DecidableEq, Repr

/-- The eleven college names of the CHECK constraint on profiles.college. -/
def validColleges : List String :=
  ["Baker College", "Will Rice College", "Hanszen College", "Wiess College",
   "Jones College", "Brown College", "Lovett College", "Sid Richardson College",
   "Martel College", "McMurtry College", "Duncan College"]

/-- The four year names of the CHECK constraint on profiles.year. -/
def validYears : List String := ["Freshman", "Sophomore", "Junior", "Senior"]

/-- The CHECK constraint on profiles.college. -/
def collegeCheck (p : Profile) : Bool := validColleges.contains p.college

/-- The CHECK constraint on profiles.year. -/
def yearCheck (p : Profile) : Bool := validYears.contains p.year

/-- The handle_new_user trigger body: a single INSERT into public.profiles
with COALESCE defaults for full_name, college and year. -/
def handle_new_user (u : NewAuthUser) : List Profile :=
  [{ id := u.id
     email := u.email
     full_name := u.raw_user_meta_data.full_name.getD ""
     college := u.raw_user_meta_data.college.getD "Baker College"
     year := u.raw_user_meta_data.year.getD "Freshman" }]

/-- The Auth page's signUp call passes only emailRedirectTo, no signup
metadata, so every metadata field arrives as NULL. -/
def authSignUpMetadata : UserMetadata :=
  { full_name := none, college := none, year := none }

/-- One due pending submission, used by the race counterexample. -/
def raceStore : Store :=
  [{ id := 1
     user_id := 7
     form_url := "https://forms.example/a"
     scheduled_time := 10
     status := Status.pending
     error_message := none
     created_at := 0
     updated_at := 0 }]

/-- One due pending submission, used by the terminal-overwrite trace. -/
def c3Store : Store :=
  [{ id := 1
     user_id := 7
     form_url := "https://forms.example/b"
     scheduled_time := 10
     status := Status.pending
     error_message := none
     created_at := 0
     updated_at := 0 }]

/-- The c3Store after the worker reports completion through
update-form-status, between the cycle's read and its batch update. -/
def c3AfterComplete : Store := updateFormStatus c3Store 1 Status.completed none 21

/-- The c3Store after the interrupted cycle's batch update then fires with
the ids it read while the job was still pending. -/
def c3AfterBatchUpdate : Store :=
  updateStatusIn c3AfterComplete ((selectPendingDue c3Store 20).map Row.id) Status.processing 22

/-- A store holding one completed and one pending submission. -/
def mixedStore : Store :=
  [{ id := 1
     user_id := 7
     form_url := "https://forms.example/c"
     scheduled_time := 10
     status := Status.completed
     error_message := none
     created_at := 0
     updated_at := 0 },
   { id := 2
     user_id := 8
     form_url := "https://forms.example/d"
     scheduled_time := 12
     status := Status.pending
     error_message := none
     created_at := 0
     updated_at := 0 }]

/-- Two due pending rows whose scheduled times are out of ascending order
in the table. -/
def unorderedStore : Store :=
  [{ id := 1
     user_id := 7
     form_url := "https://forms.example/e"
     scheduled_time := 5
     status := Status.pending
     error_message := none
     created_at := 0
     updated_at := 0 },
   { id := 2
     user_id := 8
     form_url := "https://forms.example/f"
     scheduled_time := 3
     status := Status.pending
     error_message := none
     created_at := 0
     updated_at := 0 }]

/-- One due pending submission created at 3, last touched at 4. -/
def c4Store : Store :=
  [{ id := 1
     user_id := 7
     form_url := "https://forms.example/g"
     scheduled_time := 10
     status := Status.pending
     error_message := none
     created_at := 3
     updated_at := 4 }]

/-- One submission stuck in 'processing'. -/
def c5Store : Store :=
  [{ id := 1
     user_id := 7
     form_url := "https://forms.example/h"
     scheduled_time := 10
     status := Status.processing
     error_message := none
     created_at := 0
     updated_at := 0 }]

/-- One due pending submission, used when exercising the error paths. -/
def c7Store : Store :=
  [{ id := 1
     user_id := 7
     form_url := "https://forms.example/i"
     scheduled_time := 10
     status := Status.pending
     error_message := none
     created_at := 0
     updated_at := 0 }]

/-- Membership characterization of the due select: exactly the pending rows
whose scheduled_time has passed. -/
theorem mem_selectPendingDue (store : Store) (now : Nat) (r : Row) :
    r ∈ selectPendingDue store now ↔
      r ∈ store ∧ r.status = Status.pending ∧ r.scheduled_time ≤ now := by
  simp [selectPendingDue, List.mem_filter, and_assoc]

/-- A row of the updated store whose id is in the id list carries the new
status. -/
theorem mem_updateStatusIn_status (store : Store) (ids : List Nat) (s : Status)
    (t : Nat) (r : Row) (hr : r ∈ updateStatusIn store ids s t)
    (hid : r.id ∈ ids) : r.status = s := by
  rcases List.mem_map.mp hr with ⟨a, _, hfa⟩
  by_cases h : a.id ∈ ids
  · simp only [h, if_pos] at hfa
    subst hfa
    rfl
  · simp only [h, if_neg, not_false_iff] at hfa
    subst hfa
    exact absurd hid h

/-- The batch update does not change the id column. -/
theorem updateStatusIn_map_id (store : Store) (ids : List Nat) (s : Status)
    (t : Nat) : (updateStatusIn store ids s t).map Row.id = store.map Row.id := by
  induction store with
  | nil => rfl
  | cons a as ih =>
      by_cases h : a.id ∈ ids <;>
        simp only [updateStatusIn, List.map_cons, h, if_pos, if_neg,
          not_false_iff] at ih ⊢ <;>
        exact congrArg (List.cons a.id) ih

/-- The endpoint does not change the id column of the store. -/
theorem checkPendingForms_map_id (store : Store) (now tUpd : Nat) :
    ((checkPendingForms store now tUpd).2).map Row.id = store.map Row.id := by
  by_cases h : (selectPendingDue store now).length > 0 <;>
    simp [checkPendingForms, h, updateStatusIn_map_id]

/-- Under a duplicate-free id column, any row the due select cannot return
(status other than pending) passes through a whole endpoint invocation
unchanged, positionally. -/
theorem checkPendingForms_preserves_nonpending (store : Store) (now tUpd : Nat)
    (hids : (store.map Row.id).Nodup) :
    List.Forall₂ (fun a b => a.status ≠ Status.pending → b = a)
      store (checkPendingForms store now tUpd).2 := by
  by_cases h : (selectPendingDue store now).length > 0
  · simp only [checkPendingForms, h, if_pos]
    rw [updateStatusIn, List.forall₂_map_right_iff, List.forall₂_same]
    intro a ha hstat
    have hnot : a.id ∉ (selectPendingDue store now).map Row.id := by
      intro hmem
      rcases List.mem_map.mp hmem with ⟨r, hrmem, hrid⟩
      rcases (mem_selectPendingDue store now r).mp hrmem with ⟨hrstore, hrpend, _⟩
      have : r = a := List.inj_on_of_nodup_map hids hrstore ha hrid
      exact hstat (this ▸ hrpend)
    simp [hnot]
  · simp only [checkPendingForms, h, if_neg, not_false_iff]
    exact List.forall₂_same.mpr (fun a _ _ => rfl)

/-- C1 counterexample: two claim cycles race on due job 1 (A reads, B reads,
A updates at clock 20, B updates at clock 21). Both cycles return job 1 in
their result — the losing cycle neither observes zero rows affected, nor
drops the job, nor leaves the row untouched: its update still rewrites the
row (the audit timestamp becomes 21). -/
theorem c1_losing_attempt_counterexample :
    (raceTrace raceStore 20 20 21).1.map Row.id = [1] ∧
    (raceTrace raceStore 20 20 21).2.1.map Row.id = [1] ∧
    (raceTrace raceStore 20 20 21).2.2.map Row.updated_at = [21] ∧
    (raceTrace raceStore 20 20 21).2.2.map Row.status = [Status.processing] := by
  decide

/-- C1 (amended): the batch update is unconditional — it is keyed by id only,
with no status check. Two racing cycles both return exactly the due rows they
read (the loser does not drop the job), both apply their updates, and every
row whose id was read ends with status processing. -/
theorem c1_claim_update_unconditional (s0 : Store) (now tA tB : Nat) :
    (raceTrace s0 now tA tB).1 = (raceTrace s0 now tA tB).2.1 ∧
    ∀ r ∈ (raceTrace s0 now tA tB).2.2,
      r.id ∈ (selectPendingDue s0 now).map Row.id → r.status = Status.processing := by
  refine ⟨rfl, ?_⟩
  intro r hr hid
  by_cases h : (selectPendingDue s0 now).length > 0
  · simp only [raceTrace, h, if_pos] at hr
    exact mem_updateStatusIn_status _ _ _ _ r hr hid
  · have hnil : selectPendingDue s0 now = [] :=
      List.length_eq_zero.mp (Nat.eq_zero_of_not_pos h)
    rw [hnil] at hid
    simp at hid

/-- C1 witness: the amended statement instantiated at the racing store. -/
theorem c1_claim_update_unconditional_witness :
    (raceTrace raceStore 20 20 21).1 = (raceTrace raceStore 20 20 21).2.1 ∧
    ∀ r ∈ (raceTrace raceStore 20 20 21).2.2,
      r.id ∈ (selectPendingDue raceStore 20).map Row.id →
        r.status = Status.processing :=
  c1_claim_update_unconditional raceStore 20 20 21

/-- C2 counterexample: the query has no order clause; on a table whose two
due pending rows have scheduled times 5 then 3, the select returns them in
store order [5, 3], which is not sorted by due time ascending. -/
theorem c2_order_counterexample :
    (selectPendingDue unorderedStore 10).map Row.scheduled_time = [5, 3] ∧
    ¬ List.Sorted (fun a b => a ≤ b)
        ((selectPendingDue unorderedStore 10).map Row.scheduled_time) := by
  decide

/-- C2 (amended): the select returns exactly the rows with status pending and
scheduled_time <= now — never a future-due row, never omitting an eligible
pending row — but in store order (a sublist of the table), not ordered by due
time. -/
theorem c2_listDue_exact (store : Store) (now : Nat) :
    (∀ r, r ∈ selectPendingDue store now ↔
      r ∈ store ∧ r.status = Status.pending ∧ r.scheduled_time ≤ now) ∧
    List.Sublist (selectPendingDue store now) store :=
  ⟨fun r => mem_selectPendingDue store now r, List.filter_sublist store⟩

/-- C3 counterexample: job 1 is read while pending; the worker then reports
completion through update-form-status, making its status terminal; the
cycle's unconditional batch update then fires with the ids it read and
overwrites the terminal status back to processing. -/
theorem c3_terminal_overwritten_counterexample :
    c3AfterComplete.map Row.status = [Status.completed] ∧
    c3AfterBatchUpdate.map Row.status = [Status.processing] := by
  decide

/-- C3 (amended): an uninterrupted endpoint invocation never changes a
completed or failed row (the select is restricted to pending rows and the
update touches only the selected ids), provided ids are unique as the
primary key guarantees; only an update racing with a terminal write can
overwrite a terminal status. -/
theorem c3_terminal_preserved_by_atomic_cycle (store : Store) (now tUpd : Nat)
    (hids : (store.map Row.id).Nodup) :
    List.Forall₂
      (fun a b => (a.status = Status.completed ∨ a.status = Status.failed) → b = a)
      store (checkPendingForms store now tUpd).2 :=
  (checkPendingForms_preserves_nonpending store now tUpd hids).imp
    (fun a b h hterm => h (by rcases hterm with h1 | h1 <;> simp [h1]))

/-- C3 witness: the amended statement instantiated at a store holding one
completed and one pending row. -/
theorem c3_terminal_preserved_witness :
    (mixedStore.map Row.id).Nodup ∧
    List.Forall₂
      (fun a b => (a.status = Status.completed ∨ a.status = Status.failed) → b = a)
      mixedStore (checkPendingForms mixedStore 20 20).2 :=
  ⟨by decide, c3_terminal_preserved_by_atomic_cycle mixedStore 20 20 (by decide)⟩

/-- C4 counterexample: claiming the due job rewrites the row to exactly its
old value with status processing and a fresh updated_at — the schema has no
attempt_count column and the claim transition increments nothing. -/
theorem c4_no_attempt_count_counterexample :
    (checkPendingForms c4Store 20 20).2 =
      [{ id := 1
         user_id := 7
         form_url := "https://forms.example/g"
         scheduled_time := 10
         status := Status.processing
         error_message := none
         created_at := 3
         updated_at := 20 }] := by
  decide

/-- C4 (amended): every endpoint invocation leaves each row either untouched
or changed only in its status (to processing) and its updated_at audit
column; no counter column exists, so no retry bound is enforced. -/
theorem c4_claim_changes_only_status (store : Store) (now tUpd : Nat) :
    List.Forall₂
      (fun a b => b = a ∨ b = { a with status := Status.processing, updated_at := tUpd })
      store (checkPendingForms store now tUpd).2 := by
  by_cases h : (selectPendingDue store now).length > 0
  · simp only [checkPendingForms, h, if_pos]
    rw [updateStatusIn, List.forall₂_map_right_iff]
    refine List.forall₂_same.mpr (fun a _ => ?_)
    by_cases hm : a.id ∈ (selectPendingDue store now).map Row.id <;> simp [hm]
  · simp only [checkPendingForms, h, if_neg, not_false_iff]
    exact List.forall₂_same.mpr (fun a _ => Or.inl rfl)

/-- One endpoint invocation leaves every processing row unchanged,
positionally, under a duplicate-free id column. -/
theorem step_preserves_processing (store : Store) (now tUpd : Nat)
    (hids : (store.map Row.id).Nodup) :
    List.Forall₂ (fun a b => a.status = Status.processing → b = a)
      store (checkPendingForms store now tUpd).2 :=
  (checkPendingForms_preserves_nonpending store now tUpd hids).imp
    (fun a b h hproc => h (by simp [hproc]))

/-- The processing-preservation relation composes along successive stores. -/
theorem forall₂_processing_trans (l1 l2 l3 : Store)
    (h12 : List.Forall₂ (fun a b => a.status = Status.processing → b = a) l1 l2)
    (h23 : List.Forall₂ (fun a b => a.status = Status.processing → b = a) l2 l3) :
    List.Forall₂ (fun a b => a.status = Status.processing → b = a) l1 l3 := by
  induction h12 generalizing l3 with
  | nil =>
      cases h23
      exact List.Forall₂.nil
  | cons hab h ih =>
      cases h23 with
      | cons hbc h23t =>
          refine List.Forall₂.cons (fun hproc => ?_) (ih _ h23t)
          have hba := hab hproc
          rw [hbc (hba.symm ▸ hproc), hba]

/-- C5 counterexample: a submission stuck in processing is never selected and
never changed by the endpoint — three successive cycles at times 100, 200 and
300 leave the store identical and return no rows for it; nothing requeues it
to pending. -/
theorem c5_no_reconciler_counterexample :
    runCycles c5Store [(100, 100), (200, 200), (300, 300)] = c5Store ∧
    (checkPendingForms c5Store 100 100).1.pendingForms = [] := by
  decide

/-- C5 (amended): the repository contains no reconciler — the schema has no
claim_token or claim_deadline column — and across any sequence of endpoint
invocations a processing row is never changed, in particular never returned
to pending (under the primary key's duplicate-free id column). -/
theorem c5_processing_never_requeued (store : Store) (ticks : List (Nat × Nat))
    (hids : (store.map Row.id).Nodup) :
    List.Forall₂ (fun a b => a.status = Status.processing → b = a)
      store (runCycles store ticks) := by
  induction ticks generalizing store with
  | nil => exact List.forall₂_same.mpr (fun a _ _ => rfl)
  | cons t ts ih =>
      have hstep := step_preserves_processing store t.1 t.2 hids
      have hids2 : (((checkPendingForms store t.1 t.2).2).map Row.id).Nodup := by
        rw [checkPendingForms_map_id]
        exact hids
      have hrest := ih (checkPendingForms store t.1 t.2).2 hids2
      exact forall₂_processing_trans _ _ _ hstep hrest

/-- C5 witness: the amended statement instantiated at the stuck store over
two cycles. -/
theorem c5_processing_never_requeued_witness :
    (c5Store.map Row.id).Nodup ∧
    List.Forall₂ (fun a b => a.status = Status.processing → b = a)
      c5Store (runCycles c5Store [(100, 100), (200, 200)]) :=
  ⟨by decide, c5_processing_never_requeued c5Store [(100, 100), (200, 200)] (by decide)⟩

/-- C6 counterexample: with two due jobs in the table, one call selects and
returns both — there is no limit parameter; in particular the result is not
bounded by a batch size of 1. -/
theorem c6_unbounded_select_counterexample :
    (checkPendingForms (mkDueStore 2) 0 0).1.count = 2 ∧
    ¬ (checkPendingForms (mkDueStore 2) 0 0).1.count ≤ 1 := by
  decide

/-- C6 (amended): the select is unbounded — one call returns every due
pending row, however many there are: on a table of n due jobs the response
carries all n of them. -/
theorem c6_selects_all_due (n : Nat) :
    (checkPendingForms (mkDueStore n) 0 0).1.count = n ∧
    (checkPendingForms (mkDueStore n) 0 0).1.pendingForms = mkDueStore n := by
  have hall : selectPendingDue (mkDueStore n) 0 = mkDueStore n := by
    apply List.filter_eq_self.mpr
    intro r hr
    rcases List.mem_map.mp hr with ⟨i, _, rfl⟩
    rfl
  refine ⟨?_, ?_⟩
  · show (selectPendingDue (mkDueStore n) 0).length = n
    rw [hall]
    simp [mkDueStore]
  · show selectPendingDue (mkDueStore n) 0 = mkDueStore n
    exact hall

/-- C7 counterexample: the due row is read, the batch update fails, yet the
endpoint still answers 200 with success true and the store is left with the
row still pending — the update failure is silently swallowed, not surfaced
and not resolved to any stored status. -/
theorem c7_swallowed_update_failure_counterexample :
    (checkPendingFormsWith (Except.ok (selectPendingDue c7Store 20)) true
      c7Store 20).1.success = true ∧
    (checkPendingFormsWith (Except.ok (selectPendingDue c7Store 20)) true
      c7Store 20).1.httpStatus = 200 ∧
    (checkPendingFormsWith (Except.ok (selectPendingDue c7Store 20)) true
      c7Store 20).2 = c7Store ∧
    c7Store.map Row.status = [Status.pending] := by
  decide

/-- C7 (amended): a select error is caught and produces an explicit 500
error body with the store untouched (no partial claims); but the batch
update's outcome never influences the response — the success body is
identical whether the update failed or succeeded, because its result is not
checked. -/
theorem c7_error_paths (store : Store) (tUpd : Nat) (e : String)
    (rows : List Row) (b : Bool) :
    (checkPendingFormsWith (Except.error e) b store tUpd).1.success = false ∧
    (checkPendingFormsWith (Except.error e) b store tUpd).1.httpStatus = 500 ∧
    (checkPendingFormsWith (Except.error e) b store tUpd).1.errMsg = some e ∧
    (checkPendingFormsWith (Except.error e) b store tUpd).2 = store ∧
    (checkPendingFormsWith (Except.ok rows) true store tUpd).1 =
      (checkPendingFormsWith (Except.ok rows) false store tUpd).1 :=
  ⟨rfl, rfl, rfl, rfl, rfl⟩

/-- C8: an authenticated user is allowed to select, insert, update or delete
a form_submissions row exactly when they are its owner (auth.uid() =
user_id), while the service-role credential the endpoint uses is allowed on
every row of every owner. -/
theorem c8_tenant_isolation (uid : Nat) (r : Row) (op : DbOp) :
    (accessAllowed (Credential.authenticated uid) r op = true ↔ uid = r.user_id) ∧
    accessAllowed Credential.serviceRole r op = true := by
  refine ⟨?_, rfl⟩
  cases op <;> simp [accessAllowed, formSubmissionsPolicyAllows]

/-- C9: whenever the handler completes without a thrown error it responds
200 with success true, count equal to the number of returned rows, and the
rows exactly as read before the batch update — each still pending in the
body — while the post-update store holds those same ids with status
processing. -/
theorem c9_response_reports_preupdate_rows (store : Store) (now tUpd : Nat) :
    (checkPendingForms store now tUpd).1.httpStatus = 200 ∧
    (checkPendingForms store now tUpd).1.success = true ∧
    (checkPendingForms store now tUpd).1.count =
      (checkPendingForms store now tUpd).1.pendingForms.length ∧
    (∀ r ∈ (checkPendingForms store now tUpd).1.pendingForms,
      r.status = Status.pending) ∧
    (∀ r ∈ (checkPendingForms store now tUpd).2,
      r.id ∈ ((checkPendingForms store now tUpd).1.pendingForms.map Row.id) →
        r.status = Status.processing) := by
  refine ⟨rfl, rfl, rfl, ?_, ?_⟩
  · intro r hr
    exact ((mem_selectPendingDue store now r).mp hr).2.1
  · intro r hr hid
    by_cases h : (selectPendingDue store now).length > 0
    · simp only [checkPendingForms, h, if_pos] at hr
      exact mem_updateStatusIn_status _ _ _ _ r hr hid
    · have hnil : selectPendingDue store now = [] :=
        List.length_eq_zero.mp (Nat.eq_zero_of_not_pos h)
      have hid2 : r.id ∈ (selectPendingDue store now).map Row.id := hid
      rw [hnil] at hid2
      simp at hid2

/-- C10: the signup trigger inserts exactly one profiles row, whose fields
are the new user's id and email with COALESCE defaults for the metadata
fields; when the Auth page's metadata-free signUp created the user, the
defaults '' / 'Baker College' / 'Freshman' are used and the inserted row
satisfies both the college and the year CHECK constraints. -/
theorem c10_signup_trigger_defaults (u : NewAuthUser) :
    (handle_new_user u).length = 1 ∧
    (∀ p ∈ handle_new_user u,
      p.id = u.id ∧ p.email = u.email ∧
      p.full_name = u.raw_user_meta_data.full_name.getD "" ∧
      p.college = u.raw_user_meta_data.college.getD "Baker College" ∧
      p.year = u.raw_user_meta_data.year.getD "Freshman") ∧
    (u.raw_user_meta_data = authSignUpMetadata →
      ∀ p ∈ handle_new_user u, collegeCheck p = true ∧ yearCheck p = true) := by
  refine ⟨rfl, ?_, ?_⟩
  · intro p hp
    simp only [handle_new_user, List.mem_singleton] at hp
    subst hp
    exact ⟨rfl, rfl, rfl, rfl, rfl⟩
  · intro hmeta p hp
    simp only [handle_new_user, List.mem_singleton] at hp
    subst hp
    rw [hmeta]
    exact ⟨rfl, rfl⟩

end SpotSave
